import Mathlib

/-!
Shallow embedding of the `DustAggregator` Soroban contract
(`src/contracts/hello-world/src/lib.rs` of the `lucra` repository).

Modelling conventions:
* `Address` is modelled as `String` (contract addresses are opaque identifiers
  compared only for equality).
* Rust `i128` values are modelled as unbounded `Int`; the one place where the
  128-bit range is semantically load-bearing — `i128::saturating_sub`, which
  clamps to `i128::MIN`/`i128::MAX` — carries an explicit clamp, and
  `i128::MAX` itself appears as the `i128Max` constant.
* Rust `i128` division `/` truncates toward zero, so every division from the
  source is `Int.tdiv`.
* Soroban storage is a `State` record: instance entries (`Config`,
  `BlendConfig`, the three counters) are `Option` fields, and the persistent
  `UserBalances(user)` maps are an association list keyed by user, each value
  an association list keyed by token (Soroban `Map` lookup semantics).
* External collaborators (pool factory, pool status, ledger sequence and
  timestamp, the pool position) are inputs bundled in `External`.
* A `panic!`/`expect` abort is `Except.error` carrying the panic message; a
  completed call is `Except.ok` carrying the post-state together with the
  outward effects it produced: token approvals, `submit` request lists,
  `flash_loan` request lists, and published events.
-/

namespace Lucra

abbrev Address := String

/-- The largest value representable by Rust `i128`. -/
def i128Max : Int := 2 ^ 127 - 1

/-- The smallest value representable by Rust `i128`. -/
def i128Min : Int := -(2 ^ 127)

/-- Rust `i128::saturating_sub`: the mathematical difference clamped to the
`i128` range (it saturates at `i128::MIN` and `i128::MAX`, not at zero). -/
def saturatingSub (x y : Int) : Int := max (min (x - y) i128Max) i128Min

/-- `ContractConfig` struct from the source. -/
structure ContractConfig where
  admin : Address
  fee_rate : Int
  paused : Bool
  emergency_mode : Bool
deriving Repr, DecidableEq

/-- `BlendConfig` struct from the source. -/
structure BlendConfig where
  pool_address : Address
  oracle_address : Address
  min_health_factor : Int
  auto_yield_enabled : Bool
deriving Repr, DecidableEq

/-- `UserBalance` struct from the source (`last_updated` is a `u64`). -/
structure UserBalance where
  token : Address
  balance : Int
  supplied_to_blend : Int
  borrowed_from_blend : Int
  last_updated : Nat
deriving Repr, DecidableEq

/-- `ArbitrageParams` struct from the source. -/
structure ArbitrageParams where
  loan_token : Address
  loan_amount : Int
  swap_path : List Address
  min_profit : Int
deriving Repr, DecidableEq

/-- Blend `Request` struct from the source (`request_type` is a `u32`). -/
structure Request where
  request_type : Nat
  address : Address
  amount : Int
deriving Repr, DecidableEq

def REQUEST_DEPOSIT : Nat := 0
def REQUEST_WITHDRAW : Nat := 1
def REQUEST_DEPOSIT_COLLATERAL : Nat := 2
def REQUEST_WITHDRAW_COLLATERAL : Nat := 3
def REQUEST_BORROW : Nat := 4
def REQUEST_REPAY : Nat := 5

/-- `DustEvent` enum from the source. -/
inductive DustEvent where
  | BlendSupply (user token : Address) (amount : Int)
  | BlendBorrow (user token : Address) (amount : Int)
  | FlashLoanExecuted (user token : Address) (loan_amount net_profit : Int)
deriving Repr, DecidableEq

/-- `UserPositionData` struct: the three Soroban maps are association lists
(token, amount) with distinct keys, matching Soroban `Map` iteration. -/
structure UserPositionData where
  collateral : List (Address × Int)
  liabilities : List (Address × Int)
  supply : List (Address × Int)
deriving Repr, DecidableEq

/-- Soroban `Map::get`: the value stored at the key, when present. -/
def mapGet {α β : Type} [DecidableEq α] : List (α × β) → α → Option β
  | [], _ => none
  | (k₀, v₀) :: rest, k => if k₀ = k then some v₀ else mapGet rest k

/-- Soroban `Map::set`: replace the entry for the key if present, insert
otherwise. -/
def mapSet {α β : Type} [DecidableEq α] : List (α × β) → α → β → List (α × β)
  | [], k, v => [(k, v)]
  | (k₀, v₀) :: rest, k, v =>
      if k₀ = k then (k, v) :: rest else (k₀, v₀) :: mapSet rest k v

/-- `BLEND_ORACLE_MOCK` constant from the source. -/
def BLEND_ORACLE_MOCK : Address :=
  "CCYHURAC5VTN2ZU663UUS5F24S4GURDPO4FHZ75JLN5DMLRTLCG44H44"

/-- Hardcoded XLM address from `get_token_price_usd`. -/
def XLM_ADDRESS : Address :=
  "CDLZFC3SYJYDZT7K67VZ75HPJVIEUVNIXF47ZG2FB2RMQQAreimtxjqb"

/-- Hardcoded USDC address from `get_token_price_usd`. -/
def USDC_ADDRESS : Address :=
  "CAQCFVLOBK5GIULPNZRGATJJMIZL5BSP7X5NVBXTMZLH44RFFHKX5GNI"

/-- Contract storage: instance entries and the persistent per-user balance
maps. -/
structure State where
  config : Option ContractConfig
  blendConfig : Option BlendConfig
  totalTvl : Option Int
  totalYieldGenerated : Option Int
  activeUsersCount : Option Int
  userBalances : List (Address × List (Address × UserBalance))
deriving Repr, DecidableEq

/-- The empty (never-touched) storage. -/
def State.empty : State :=
  { config := none, blendConfig := none, totalTvl := none
    totalYieldGenerated := none, activeUsersCount := none, userBalances := [] }

/-- Environment data supplied by collaborators outside this contract: the
current contract address, ledger sequence and timestamp, the pool factory
registry, each pool's status code, and the contract's position at the pool. -/
structure External where
  contractAddress : Address
  sequence : Nat
  timestamp : Nat
  isPool : Address → Bool
  poolStatus : Address → Nat
  position : UserPositionData

/-- `Approval`: one `token.approve(from, spender, amount, expiration)` call
issued by the contract. -/
structure Approval where
  owner : Address
  spender : Address
  amount : Int
  expiration : Nat
deriving Repr, DecidableEq

/-- The post-state and outward effects of one completed contract call. -/
structure OpResult where
  state : State
  approvals : List Approval
  submissions : List (List Request)
  flashLoans : List (List Request)
  events : List DustEvent
deriving Repr, DecidableEq

/-- `initialize(admin, fee_rate, blend_pool, min_health_factor)` from the
source: abort when a `Config` entry already exists, abort when the pool
factory does not recognize `blend_pool`, otherwise persist `Config` and
`BlendConfig` and zero the three counters. -/
def initContract (st : State) (ext : External) (admin : Address) (fee_rate : Int)
    (blend_pool : Address) (min_health_factor : Int) : Except String OpResult :=
  if st.config.isSome then .error "Already initialized"
  else if ext.isPool blend_pool = false then .error "Invalid blend pool"
  else
    let config : ContractConfig :=
      { admin := admin, fee_rate := fee_rate, paused := false
        emergency_mode := false }
    let blend_config : BlendConfig :=
      { pool_address := blend_pool, oracle_address := BLEND_ORACLE_MOCK
        min_health_factor := min_health_factor, auto_yield_enabled := true }
    .ok { state :=
            { st with
              config := some config
              blendConfig := some blend_config
              totalTvl := some 0
              totalYieldGenerated := some 0
              activeUsersCount := some 0 }
          approvals := []
          submissions := []
          flashLoans := []
          events := [] }

/-- `supply_to_blend_internal` from the source: require `BlendConfig`, abort
when the pool status exceeds 3, approve the pool for `amount` until
`sequence + 1000`, submit one deposit-collateral request, and add `amount` to
the user's `supplied_to_blend` tracker (creating the record lazily). -/
def supply_to_blend (st : State) (ext : External) (user token : Address)
    (amount : Int) : Except String OpResult :=
  match st.blendConfig with
  | none => .error "Blend config not found"
  | some blend_config =>
    if ext.poolStatus blend_config.pool_address > 3 then .error "Pool frozen"
    else
      let approval : Approval :=
        { owner := ext.contractAddress
          spender := blend_config.pool_address
          amount := amount
          expiration := ext.sequence + 1000 }
      let request : Request :=
        { request_type := REQUEST_DEPOSIT_COLLATERAL
          address := token
          amount := amount }
      let user_balances := (mapGet st.userBalances user).getD []
      let balance := (mapGet user_balances token).getD
        { token := token
          balance := 0
          supplied_to_blend := 0
          borrowed_from_blend := 0
          last_updated := ext.timestamp }
      let balance :=
        { balance with
          supplied_to_blend := balance.supplied_to_blend + amount
          last_updated := ext.timestamp }
      let user_balances := mapSet user_balances token balance
      .ok { state :=
              { st with userBalances := mapSet st.userBalances user user_balances }
            approvals := [approval]
            submissions := [[request]]
            flashLoans := []
            events := [DustEvent.BlendSupply user token amount] }

/-- `borrow_against_dust` from the source: require `BlendConfig`, abort when
the pool status exceeds 1, submit one borrow request, and add `amount` to both
the `borrowed_from_blend` tracker and the spendable `balance` (creating the
record lazily). -/
def borrow_against_dust (st : State) (ext : External) (user borrow_token : Address)
    (amount : Int) : Except String OpResult :=
  match st.blendConfig with
  | none => .error "Blend config not found"
  | some blend_config =>
    if ext.poolStatus blend_config.pool_address > 1 then
      .error "Pool frozen or on ice"
    else
      let request : Request :=
        { request_type := REQUEST_BORROW
          address := borrow_token
          amount := amount }
      let user_balances := (mapGet st.userBalances user).getD []
      let balance := (mapGet user_balances borrow_token).getD
        { token := borrow_token
          balance := 0
          supplied_to_blend := 0
          borrowed_from_blend := 0
          last_updated := ext.timestamp }
      let balance :=
        { balance with
          borrowed_from_blend := balance.borrowed_from_blend + amount
          balance := balance.balance + amount
          last_updated := ext.timestamp }
      let user_balances := mapSet user_balances borrow_token balance
      .ok { state :=
              { st with userBalances := mapSet st.userBalances user user_balances }
            approvals := []
            submissions := [[request]]
            flashLoans := []
            events := [DustEvent.BlendBorrow user borrow_token amount] }

/-- `withdraw_from_blend_internal` from the source: require `BlendConfig`
submit one withdraw-collateral request, and when a record for the token
exists, replace `supplied_to_blend` by its `saturating_sub` with `amount`;
when no record exists, write nothing. -/
def withdraw_from_blend (st : State) (ext : External) (user token : Address)
    (amount : Int) : Except String OpResult :=
  match st.blendConfig with
  | none => .error "Blend config not found"
  | some _blend_config =>
    let request : Request :=
      { request_type := REQUEST_WITHDRAW_COLLATERAL
        address := token
        amount := amount }
    let user_balances := (mapGet st.userBalances user).getD []
    match mapGet user_balances token with
    | some balance =>
        let balance :=
          { balance with
            supplied_to_blend := saturatingSub balance.supplied_to_blend amount
            last_updated := ext.timestamp }
        let user_balances := mapSet user_balances token balance
        .ok { state :=
                { st with userBalances := mapSet st.userBalances user user_balances }
              approvals := []
              submissions := [[request]]
              flashLoans := []
              events := [] }
    | none =>
        .ok { state := st
              approvals := []
              submissions := [[request]]
              flashLoans := []
              events := [] }

/-- `repay_blend_debt` from the source: require `BlendConfig`, approve the
pool for `amount` until `sequence + 1000`, submit one repay request, and when
a record for the token exists, replace `borrowed_from_blend` and `balance` by
their `saturating_sub` with `amount`; when no record exists, write nothing. -/
def repay_blend_debt (st : State) (ext : External) (user token : Address)
    (amount : Int) : Except String OpResult :=
  match st.blendConfig with
  | none => .error "Blend config not found"
  | some blend_config =>
    let approval : Approval :=
      { owner := ext.contractAddress
        spender := blend_config.pool_address
        amount := amount
        expiration := ext.sequence + 1000 }
    let request : Request :=
      { request_type := REQUEST_REPAY, address := token, amount := amount }
    let user_balances := (mapGet st.userBalances user).getD []
    match mapGet user_balances token with
    | some balance =>
        let balance :=
          { balance with
            borrowed_from_blend := saturatingSub balance.borrowed_from_blend amount
            balance := saturatingSub balance.balance amount
            last_updated := ext.timestamp }
        let user_balances := mapSet user_balances token balance
        .ok { state :=
                { st with userBalances := mapSet st.userBalances user user_balances }
              approvals := [approval]
              submissions := [[request]]
              flashLoans := []
              events := [] }
    | none =>
        .ok { state := st
              approvals := [approval]
              submissions := [[request]]
              flashLoans := []
              events := [] }

/-- `execute_arbitrage_swaps` from the source: the simulated gross profit is
`loan_amount * 150 / 10000`, floored at `min_profit`. -/
def execute_arbitrage_swaps (params : ArbitrageParams) : Int :=
  let profit := Int.tdiv (params.loan_amount * 150) 10000
  if profit < params.min_profit then params.min_profit else profit

/-- The body of `flash_loan_arbitrage` with the gross profit delivered by the
swap step taken as a parameter (the spec designates the swap-execution
strategy as pluggable; the source instantiates it with
`execute_arbitrage_swaps`, see `flash_loan_arbitrage`). Steps, in source
order: require `Config`, abort when paused, require `BlendConfig`, build the
borrow and repay requests around the swap step, invoke the pool's
`flash_loan`, abort when `profit < min_profit`, otherwise take
`fee = profit * fee_rate / 10000`, emit the event with
`net_profit = profit - fee` and return it. -/
def flashLoanArbitrageWith (st : State) (_ext : External) (user : Address)
    (params : ArbitrageParams) (profit : Int) : Except String (OpResult × Int) :=
  match st.config with
  | none => .error "Contract not initialized"
  | some config =>
    if config.paused then .error "Contract is paused"
    else
      match st.blendConfig with
      | none => .error "Blend config not found"
      | some _blend_config =>
        let borrow_request : Request :=
          { request_type := REQUEST_BORROW
            address := params.loan_token
            amount := params.loan_amount }
        let repay_request : Request :=
          { request_type := REQUEST_REPAY
            address := params.loan_token
            amount := params.loan_amount }
        let requests : List Request := [borrow_request, repay_request]
        if profit < params.min_profit then .error "Profit below threshold"
        else
          let fee := Int.tdiv (profit * config.fee_rate) 10000
          let net_profit := profit - fee
          .ok ( { state := st
                  approvals := []
                  submissions := []
                  flashLoans := [requests]
                  events := [DustEvent.FlashLoanExecuted user params.loan_token
                              params.loan_amount net_profit] }
              , net_profit )

/-- `flash_loan_arbitrage(user, params)` from the source: the body above with
the gross profit computed by `execute_arbitrage_swaps`. -/
def flash_loan_arbitrage (st : State) (ext : External) (user : Address)
    (params : ArbitrageParams) : Except String (OpResult × Int) :=
  flashLoanArbitrageWith st ext user params (execute_arbitrage_swaps params)

/-- `get_token_price_usd` from the source: hardcoded prices scaled by 1e6
with 1e6 as the default for unknown tokens. -/
def get_token_price_usd (token : Address) : Int :=
  if token = XLM_ADDRESS then 120000
  else if token = USDC_ADDRESS then 1000000
  else 1000000

/-- `calculate_health_factor` from the source: require `BlendConfig`, fold
the position's collateral and liabilities maps accumulating
`amount * price / 1_000_000` over positive entries, return `i128::MAX` when
the accumulated debt value is zero and
`collateral_value * 8000 / debt_value / 10000` otherwise. -/
def calculate_health_factor (st : State) (ext : External) : Except String Int :=
  match st.blendConfig with
  | none => .error "Blend config not found"
  | some _blend_config =>
    let total_collateral_value := ext.position.collateral.foldl
      (fun acc e =>
        if e.2 > 0 then acc + Int.tdiv (e.2 * get_token_price_usd e.1) 1000000
        else acc) 0
    let total_debt_value := ext.position.liabilities.foldl
      (fun acc e =>
        if e.2 > 0 then acc + Int.tdiv (e.2 * get_token_price_usd e.1) 1000000
        else acc) 0
    if total_debt_value = 0 then .ok i128Max
    else .ok (Int.tdiv (Int.tdiv (total_collateral_value * 8000) total_debt_value) 10000)

/-- `get_user_balance` from the source: the stored record, or a fresh all-zero
record stamped with the current timestamp. -/
def get_user_balance (st : State) (ext : External) (user token : Address) :
    UserBalance :=
  (mapGet ((mapGet st.userBalances user).getD []) token).getD
    { token := token
      balance := 0
      supplied_to_blend := 0
      borrowed_from_blend := 0
      last_updated := ext.timestamp }

/-! ### Helper lemmas -/

theorem mapGet_mapSet {α β : Type} [DecidableEq α] (m : List (α × β)) (k t : α)
    (v : β) :
    mapGet (mapSet m k v) t = if t = k then some v else mapGet m t := by
  induction m with
  | nil =>
      simp only [mapSet, mapGet]
      by_cases h : k = t
      · subst h; simp
      · rw [if_neg h, if_neg (fun hh => h hh.symm)]
  | cons p rest ih =>
      obtain ⟨k₀, v₀⟩ := p
      simp only [mapSet]
      by_cases h : k₀ = k
      · subst h
        simp only [if_pos rfl, mapGet]
        by_cases ht : k₀ = t
        · subst ht; simp
        · rw [if_neg ht, if_neg ht, if_neg (fun hh => ht hh.symm)]
      · rw [if_neg h]
        simp only [mapGet]
        by_cases ht : k₀ = t
        · subst ht
          rw [if_pos rfl, if_pos rfl, if_neg h]
        · rw [if_neg ht, if_neg ht, ih]

theorem mapGet_mapSet_self {α β : Type} [DecidableEq α] (m : List (α × β))
    (k : α) (v : β) : mapGet (mapSet m k v) k = some v := by
  rw [mapGet_mapSet]; simp

theorem mapGet_mapSet_ne {α β : Type} [DecidableEq α] (m : List (α × β))
    (k t : α) (v : β) (h : t ≠ k) : mapGet (mapSet m k v) t = mapGet m t := by
  rw [mapGet_mapSet, if_neg h]

theorem saturatingSub_nonneg (x y : Int) (h : y ≤ x) :
    0 ≤ saturatingSub x y := by
  have h1 : (0 : Int) ≤ x - y := by linarith
  have h2 : (0 : Int) ≤ min (x - y) i128Max :=
    le_min h1 (by norm_num [i128Max])
  exact le_trans h2 (le_max_left _ _)

/-- The gross profit returned by the source's swap step is floored at
`min_profit`. -/
theorem execute_arbitrage_swaps_ge (params : ArbitrageParams) :
    params.min_profit ≤ execute_arbitrage_swaps params := by
  unfold execute_arbitrage_swaps
  dsimp only
  split
  · exact le_refl _
  · next h => exact le_of_not_lt h

/-! ### Claims -/

/-- Claim C9: for every `ArbitrageParams` value, `execute_arbitrage_swaps`
returns a profit at least `params.min_profit` (it floors its simulated result
at `min_profit`), so the "Profit below threshold" abort branch of
`flash_loan_arbitrage` is unreachable in this reference implementation. -/
theorem C9_profit_floor_makes_abort_unreachable :
    (∀ params : ArbitrageParams,
      params.min_profit ≤ execute_arbitrage_swaps params) ∧
    (∀ (st : State) (ext : External) (user : Address) (params : ArbitrageParams),
      flash_loan_arbitrage st ext user params ≠ .error "Profit below threshold") := by
  refine ⟨execute_arbitrage_swaps_ge, ?_⟩
  intro st ext user params
  unfold flash_loan_arbitrage flashLoanArbitrageWith
  cases hc : st.config with
  | none => simp
  | some c =>
    cases hp : c.paused with
    | true => simp [hp]
    | false =>
      cases hb : st.blendConfig with
      | none => simp [hp, hb]
      | some bc =>
        simp only [hp, Bool.false_eq_true, if_false]
        rw [if_neg (not_lt.mpr (execute_arbitrage_swaps_ge params))]
        simp

/-- Claim C6: with a stored `BlendConfig`, supply is rejected exactly when the
pool status code exceeds 3 and borrow is rejected exactly when it exceeds 1;
in particular for status 2 and 3 supply completes while borrow is rejected. -/
theorem C6_pool_status_gates (st : State) (ext : External) (user token : Address)
    (amount : Int) (bc : BlendConfig) (hb : st.blendConfig = some bc) :
    ((supply_to_blend st ext user token amount).isOk = false ↔
        3 < ext.poolStatus bc.pool_address) ∧
    ((borrow_against_dust st ext user token amount).isOk = false ↔
        1 < ext.poolStatus bc.pool_address) ∧
    (ext.poolStatus bc.pool_address = 2 ∨ ext.poolStatus bc.pool_address = 3 →
      (supply_to_blend st ext user token amount).isOk = true ∧
      (borrow_against_dust st ext user token amount).isOk = false) := by
  refine ⟨?_, ?_, ?_⟩
  · by_cases h : 3 < ext.poolStatus bc.pool_address <;>
      simp [supply_to_blend, hb, h, Except.isOk, Except.toBool]
  · by_cases h : 1 < ext.poolStatus bc.pool_address <;>
      simp [borrow_against_dust, hb, h, Except.isOk, Except.toBool]
  · rintro (h | h) <;>
      simp [supply_to_blend, borrow_against_dust, hb, h, Except.isOk, Except.toBool]

/-- Witness for C6 at pool status 2. -/
theorem C6_pool_status_gates_witness :
    ((supply_to_blend
        { State.empty with
          blendConfig := some
            { pool_address := "POOL"
              oracle_address := BLEND_ORACLE_MOCK
              min_health_factor := 100
              auto_yield_enabled := true } }
        { contractAddress := "SELF"
          sequence := 7
          timestamp := 42
          isPool := fun _ => true
          poolStatus := fun _ => 2
          position := { collateral := [], liabilities := [], supply := [] } }
        "user" "TOK" 5).isOk = true) ∧
    ((borrow_against_dust
        { State.empty with
          blendConfig := some
            { pool_address := "POOL"
              oracle_address := BLEND_ORACLE_MOCK
              min_health_factor := 100
              auto_yield_enabled := true } }
        { contractAddress := "SELF"
          sequence := 7
          timestamp := 42
          isPool := fun _ => true
          poolStatus := fun _ => 2
          position := { collateral := [], liabilities := [], supply := [] } }
        "user" "TOK" 5).isOk = false) :=
  (C6_pool_status_gates _ _ "user" "TOK" 5 _ rfl).2.2 (Or.inl rfl)

/-- Claim C1: in `flash_loan_arbitrage` (whose post-swap body is
`flashLoanArbitrageWith`, instantiated by the source with the gross profit
delivered by `execute_arbitrage_swaps`), when the gross profit from the swap
step is below `params.min_profit` the call aborts entirely — the abort carries
no event and no state, so nothing is emitted and no balance changes — and
otherwise the call computes `fee = profit * fee_rate / 10000` and
`net_profit = profit - fee` with truncating integer division, emits exactly
one arbitrage-executed event carrying exactly `net_profit`, leaves the stored
state unchanged, and returns `net_profit`. -/
theorem C1_flash_loan_profit_threshold_and_fee (st : State) (ext : External)
    (user : Address) (params : ArbitrageParams) (profit : Int)
    (c : ContractConfig) (bc : BlendConfig)
    (hc : st.config = some c) (hp : c.paused = false)
    (hb : st.blendConfig = some bc) :
    (profit < params.min_profit →
      flashLoanArbitrageWith st ext user params profit =
        .error "Profit below threshold") ∧
    (params.min_profit ≤ profit →
      ∃ r, flashLoanArbitrageWith st ext user params profit =
          .ok (r, profit - Int.tdiv (profit * c.fee_rate) 10000) ∧
        r.state = st ∧
        r.events = [DustEvent.FlashLoanExecuted user params.loan_token
          params.loan_amount (profit - Int.tdiv (profit * c.fee_rate) 10000)] ∧
        r.approvals = [] ∧ r.submissions = []) ∧
    flash_loan_arbitrage st ext user params =
      flashLoanArbitrageWith st ext user params (execute_arbitrage_swaps params) := by
  refine ⟨?_, ?_, rfl⟩
  · intro hlt
    simp [flashLoanArbitrageWith, hc, hp, hb, hlt]
  · intro hge
    refine ⟨⟨st, [], [],
      [[⟨REQUEST_BORROW, params.loan_token, params.loan_amount⟩,
        ⟨REQUEST_REPAY, params.loan_token, params.loan_amount⟩]],
      [DustEvent.FlashLoanExecuted user params.loan_token params.loan_amount
        (profit - Int.tdiv (profit * c.fee_rate) 10000)]⟩, ?_, rfl, rfl, rfl, rfl⟩
    simp only [flashLoanArbitrageWith, hc, hp, Bool.false_eq_true, if_false, hb]
    rw [if_neg (not_lt.mpr hge)]

/-- A concrete environment used by witness theorems: every address passes the
pool registry and the pool status is 0. -/
def extW : External :=
  { contractAddress := "SELF"
    sequence := 7
    timestamp := 42
    isPool := fun _ => true
    poolStatus := fun _ => 0
    position := { collateral := [], liabilities := [], supply := [] } }

/-- A concrete contract configuration used by witness theorems. -/
def cfgW : ContractConfig :=
  { admin := "admin", fee_rate := 100, paused := false, emergency_mode := false }

/-- A concrete Blend configuration used by witness theorems. -/
def bcW : BlendConfig :=
  { pool_address := "POOL"
    oracle_address := BLEND_ORACLE_MOCK
    min_health_factor := 100
    auto_yield_enabled := true }

/-- A concrete initialized, unpaused state used by witness theorems. -/
def stW : State :=
  { State.empty with config := some cfgW, blendConfig := some bcW }

/-- Witness for C1: a configured unpaused state with fee rate 100 bps, gross
profit 100 against a threshold of 50; the net profit is 99. -/
theorem C1_flash_loan_profit_threshold_and_fee_witness :
    ∃ r, flashLoanArbitrageWith stW extW "user"
        { loan_token := "T", loan_amount := 5, swap_path := [], min_profit := 50 }
        100 =
      .ok (r, 99) ∧
      r.events = [DustEvent.FlashLoanExecuted "user" "T" 5 99] := by
  obtain ⟨r, hr, -, hev, -, -⟩ :=
    (C1_flash_loan_profit_threshold_and_fee stW extW "user"
      { loan_token := "T", loan_amount := 5, swap_path := [], min_profit := 50 }
      100 cfgW bcW rfl rfl rfl).2.1 (by norm_num)
  exact ⟨r, by rw [hr]; rfl, by rw [hev]; rfl⟩

/-- All four numeric fields of a stored balance record are nonnegative
(`last_updated` is a `u64`, modelled as `Nat` and compared after a cast to
`Int`). -/
def recordNonneg (b : UserBalance) : Prop :=
  0 ≤ b.balance ∧ 0 ≤ b.supplied_to_blend ∧ 0 ≤ b.borrowed_from_blend ∧
    0 ≤ (b.last_updated : Int)

/-- Every record stored in any user's balance map is nonnegative. -/
def stateNonneg (st : State) : Prop :=
  ∀ u m, mapGet st.userBalances u = some m →
    ∀ t b, mapGet m t = some b → recordNonneg b

theorem entriesNonneg_of_state (st : State) (u : Address) (hst : stateNonneg st) :
    ∀ t b, mapGet ((mapGet st.userBalances u).getD []) t = some b →
      recordNonneg b := by
  intro t b hb
  cases h : mapGet st.userBalances u with
  | none => rw [h] at hb; exact Option.noConfusion hb
  | some m => rw [h] at hb; exact hst u m h t b hb

theorem entriesNonneg_set (m : List (Address × UserBalance)) (k : Address)
    (v : UserBalance) (hm : ∀ t b, mapGet m t = some b → recordNonneg b)
    (hv : recordNonneg v) :
    ∀ t b, mapGet (mapSet m k v) t = some b → recordNonneg b := by
  intro t b hb
  rw [mapGet_mapSet] at hb
  by_cases h : t = k
  · rw [if_pos h] at hb; cases hb; exact hv
  · rw [if_neg h] at hb; exact hm t b hb

theorem stateNonneg_setUser (st : State) (u : Address)
    (m : List (Address × UserBalance)) (hst : stateNonneg st)
    (hm : ∀ t b, mapGet m t = some b → recordNonneg b) :
    stateNonneg { st with userBalances := mapSet st.userBalances u m } := by
  intro u2 m2 hm2 t b hb
  dsimp only at hm2
  by_cases h : u2 = u
  · subst h
    rw [mapGet_mapSet_self] at hm2
    cases hm2
    exact hm t b hb
  · rw [mapGet_mapSet_ne _ _ _ _ h] at hm2
    exact hst u2 m2 hm2 t b hb

theorem record_getD_nonneg (st : State) (u t : Address) (ts : Nat)
    (hst : stateNonneg st) :
    recordNonneg ((mapGet ((mapGet st.userBalances u).getD []) t).getD
      { token := t, balance := 0, supplied_to_blend := 0
        borrowed_from_blend := 0, last_updated := ts }) := by
  cases hg : mapGet ((mapGet st.userBalances u).getD []) t with
  | none => exact ⟨le_refl 0, le_refl 0, le_refl 0, Int.natCast_nonneg ts⟩
  | some b => exact entriesNonneg_of_state st u hst t b hg

/-- The state reached from empty storage by `initialize` followed by
`supply_to_blend` with the caller-chosen amount `-2` (pool status 0, so every
gate passes). -/
def C2chain : Except String OpResult :=
  match initContract State.empty extW "admin" 100 "POOL" 100 with
  | .error e => .error e
  | .ok r => supply_to_blend r.state extW "user" "TOK" (-2)

/-- The state reached from empty storage by `initialize`, `supply_to_blend`
of 3, then `withdraw_from_blend` of 5 (every gate passes). -/
def C2chainWd : Except String OpResult :=
  match initContract State.empty extW "admin" 100 "POOL" 100 with
  | .error e => .error e
  | .ok r =>
    match supply_to_blend r.state extW "user" "TOK" 3 with
    | .error e => .error e
    | .ok r2 => withdraw_from_blend r2.state extW "user" "TOK" 5

/-- The state reached from empty storage by `initialize`,
`borrow_against_dust` of 4, then `repay_blend_debt` of 5. -/
def C2chainRp : Except String OpResult :=
  match initContract State.empty extW "admin" 100 "POOL" 100 with
  | .error e => .error e
  | .ok r =>
    match borrow_against_dust r.state extW "user" "TOK" 4 with
    | .error e => .error e
    | .ok r2 => repay_blend_debt r2.state extW "user" "TOK" 5

set_option maxRecDepth 8000 in
/-- Counterexample to claim C2 as stated, in each of the three ways the code
violates it on reachable states: (a) after `initialize`, supplying the
caller-chosen amount -2 completes and stores `supplied_to_blend = -2`;
(b) after supplying 3, withdrawing 5 stores `supplied_to_blend = -2`;
(c) after borrowing 4, repaying 5 stores `borrowed_from_blend = -1` and
`balance = -1`. The operations never validate the caller-supplied amount, and
the saturating subtraction does not stop at zero. -/
theorem C2_counterexample :
    C2chain.map
      (fun r => (get_user_balance r.state extW "user" "TOK").supplied_to_blend) =
      .ok (-2) ∧
    C2chainWd.map
      (fun r => (get_user_balance r.state extW "user" "TOK").supplied_to_blend) =
      .ok (-2) ∧
    C2chainRp.map
      (fun r =>
        ((get_user_balance r.state extW "user" "TOK").borrowed_from_blend,
          (get_user_balance r.state extW "user" "TOK").balance)) = .ok (-1, -1) ∧
    ¬ (0 : Int) ≤ -2 ∧ ¬ (0 : Int) ≤ -1 :=
  ⟨rfl, rfl, rfl, by norm_num, by norm_num⟩

/-- Claim C2 (amended): the operations do not validate amounts, so the
invariant holds only under the side conditions forced by the three
counterexamples: starting from a state whose stored records are all
nonnegative, `supply_to_blend` and `borrow_against_dust` keep all four
numeric fields of every stored record nonnegative whenever the
caller-supplied amount is nonnegative, `withdraw_from_blend` whenever in
addition the amount does not exceed the stored record's `supplied_to_blend`,
and `repay_blend_debt` whenever the amount exceeds neither
`borrowed_from_blend` nor `balance` (the `i128` saturating subtraction clamps
at `i128::MIN`, not at zero, so an oversized decrement drives the field
negative). -/
theorem C2_amended_nonneg_preservation (st : State) (ext : External)
    (user token : Address) (amount : Int)
    (hst : stateNonneg st) (hamt : 0 ≤ amount) :
    (∀ r, supply_to_blend st ext user token amount = .ok r →
      stateNonneg r.state) ∧
    (∀ r, borrow_against_dust st ext user token amount = .ok r →
      stateNonneg r.state) ∧
    ((∀ b, mapGet ((mapGet st.userBalances user).getD []) token = some b →
        amount ≤ b.supplied_to_blend) →
      ∀ r, withdraw_from_blend st ext user token amount = .ok r →
        stateNonneg r.state) ∧
    ((∀ b, mapGet ((mapGet st.userBalances user).getD []) token = some b →
        amount ≤ b.borrowed_from_blend ∧ amount ≤ b.balance) →
      ∀ r, repay_blend_debt st ext user token amount = .ok r →
        stateNonneg r.state) := by
  refine ⟨?_, ?_, ?_, ?_⟩
  · intro r h
    cases hbc : st.blendConfig with
    | none => simp [supply_to_blend, hbc] at h
    | some bc =>
      simp only [supply_to_blend, hbc] at h
      by_cases hs : ext.poolStatus bc.pool_address > 3
      · rw [if_pos hs] at h; exact absurd h (by simp)
      · rw [if_neg hs] at h
        simp only [Except.ok.injEq] at h
        subst h
        refine stateNonneg_setUser st user _ hst
          (entriesNonneg_set _ _ _ (entriesNonneg_of_state st user hst) ?_)
        have hold := record_getD_nonneg st user token ext.timestamp hst
        exact ⟨hold.1, add_nonneg hold.2.1 hamt, hold.2.2.1,
          Int.natCast_nonneg _⟩
  · intro r h
    cases hbc : st.blendConfig with
    | none => simp [borrow_against_dust, hbc] at h
    | some bc =>
      simp only [borrow_against_dust, hbc] at h
      by_cases hs : ext.poolStatus bc.pool_address > 1
      · rw [if_pos hs] at h; exact absurd h (by simp)
      · rw [if_neg hs] at h
        simp only [Except.ok.injEq] at h
        subst h
        refine stateNonneg_setUser st user _ hst
          (entriesNonneg_set _ _ _ (entriesNonneg_of_state st user hst) ?_)
        have hold := record_getD_nonneg st user token ext.timestamp hst
        exact ⟨add_nonneg hold.1 hamt, hold.2.1, add_nonneg hold.2.2.1 hamt,
          Int.natCast_nonneg _⟩
  · intro hw r h
    cases hbc : st.blendConfig with
    | none => simp [withdraw_from_blend, hbc] at h
    | some bc =>
      simp only [withdraw_from_blend, hbc] at h
      cases hg : mapGet ((mapGet st.userBalances user).getD []) token with
      | none =>
          rw [hg] at h
          simp only [Except.ok.injEq] at h
          subst h
          exact hst
      | some b =>
          rw [hg] at h
          simp only [Except.ok.injEq] at h
          subst h
          have hb := entriesNonneg_of_state st user hst token b hg
          refine stateNonneg_setUser st user _ hst
            (entriesNonneg_set _ _ _ (entriesNonneg_of_state st user hst) ?_)
          exact ⟨hb.1, saturatingSub_nonneg _ _ (hw b hg), hb.2.2.1,
            Int.natCast_nonneg _⟩
  · intro hw r h
    cases hbc : st.blendConfig with
    | none => simp [repay_blend_debt, hbc] at h
    | some bc =>
      simp only [repay_blend_debt, hbc] at h
      cases hg : mapGet ((mapGet st.userBalances user).getD []) token with
      | none =>
          rw [hg] at h
          simp only [Except.ok.injEq] at h
          subst h
          exact hst
      | some b =>
          rw [hg] at h
          simp only [Except.ok.injEq] at h
          subst h
          have hb := entriesNonneg_of_state st user hst token b hg
          refine stateNonneg_setUser st user _ hst
            (entriesNonneg_set _ _ _ (entriesNonneg_of_state st user hst) ?_)
          exact ⟨saturatingSub_nonneg _ _ (hw b hg).2,
            hb.2.1, saturatingSub_nonneg _ _ (hw b hg).1,
            Int.natCast_nonneg _⟩

/-- The result of a concrete supply call used by the C2 witness. -/
def C2wRes : OpResult :=
  match supply_to_blend stW extW "user" "TOK" 1 with
  | .ok r => r
  | .error _ => ⟨State.empty, [], [], [], []⟩

/-- A stored record with balance 10, supplied 3, borrowed 4, used by the C2
witness to exercise the withdraw and repay conjuncts. -/
def balC2 : UserBalance :=
  { token := "TOK"
    balance := 10
    supplied_to_blend := 3
    borrowed_from_blend := 4
    last_updated := 0 }

/-- An initialized state holding exactly the record `balC2`. -/
def stC2rec : State := { stW with userBalances := [("user", [("TOK", balC2)])] }

theorem stC2rec_nonneg : stateNonneg stC2rec := by
  intro u m hm t b hb
  have hm2 : mapGet [("user", [("TOK", balC2)])] u = some m := hm
  simp only [mapGet] at hm2
  by_cases hu : "user" = u
  · rw [if_pos hu] at hm2
    cases hm2
    simp only [mapGet] at hb
    by_cases ht : "TOK" = t
    · rw [if_pos ht] at hb
      cases hb
      exact ⟨by decide, by decide, by decide, by decide⟩
    · rw [if_neg ht] at hb
      exact Option.noConfusion hb
  · rw [if_neg hu] at hm2
    exact Option.noConfusion hm2

/-- The result of a concrete borrow of 1 on `stC2rec`. -/
def C2bRes : OpResult :=
  match borrow_against_dust stC2rec extW "user" "TOK" 1 with
  | .ok r => r
  | .error _ => ⟨State.empty, [], [], [], []⟩

/-- The result of a concrete withdraw of 2 (within the tracked supply 3) on
`stC2rec`. -/
def C2wdRes : OpResult :=
  match withdraw_from_blend stC2rec extW "user" "TOK" 2 with
  | .ok r => r
  | .error _ => ⟨State.empty, [], [], [], []⟩

/-- The result of a concrete repay of 4 (within the tracked debt 4 and
balance 10) on `stC2rec`. -/
def C2rpRes : OpResult :=
  match repay_blend_debt stC2rec extW "user" "TOK" 4 with
  | .ok r => r
  | .error _ => ⟨State.empty, [], [], [], []⟩

set_option maxRecDepth 8000 in
/-- Witness for the amended C2, exercising every conjunct: a supply of 1 on
the record-free initialized state, and a borrow of 1, a withdraw of 2 and a
repay of 4 on the state holding the record (10, 3, 4), each yield a state
whose stored records are all nonnegative. -/
theorem C2_amended_nonneg_preservation_witness :
    stateNonneg C2wRes.state ∧ stateNonneg C2bRes.state ∧
    stateNonneg C2wdRes.state ∧ stateNonneg C2rpRes.state := by
  refine ⟨?_, ?_, ?_, ?_⟩
  · exact (C2_amended_nonneg_preservation stW extW "user" "TOK" 1
      (fun _ _ hm => Option.noConfusion hm) (by norm_num)).1 C2wRes rfl
  · exact (C2_amended_nonneg_preservation stC2rec extW "user" "TOK" 1
      stC2rec_nonneg (by norm_num)).2.1 C2bRes rfl
  · refine (C2_amended_nonneg_preservation stC2rec extW "user" "TOK" 2
      stC2rec_nonneg (by norm_num)).2.2.1 ?_ C2wdRes rfl
    intro b hb
    have h : some balC2 = some b := hb
    injection h with h2
    subst h2
    decide
  · refine (C2_amended_nonneg_preservation stC2rec extW "user" "TOK" 4
      stC2rec_nonneg (by norm_num)).2.2.2 ?_ C2rpRes rfl
    intro b hb
    have h : some balC2 = some b := hb
    injection h with h2
    subst h2
    exact ⟨by decide, by decide⟩

/-- Modelled from the claim's words, as amended: the value of a position map
is the sum of `amount * price / 1_000_000` over its strictly positive
entries. -/
def claimTotalValue (entries : List (Address × Int)) : Int :=
  ((entries.filter fun e => decide (0 < e.2)).map
    (fun e => Int.tdiv (e.2 * get_token_price_usd e.1) 1000000)).sum

/-- Modelled from the claim's words, as amended: `i128::MAX` on zero debt
value, otherwise `collateral_value * 8000 / debt_value / 10000` with
truncating division in that order. -/
def claimHealthFactor (position : UserPositionData) : Int :=
  if claimTotalValue position.liabilities = 0 then i128Max
  else Int.tdiv (Int.tdiv (claimTotalValue position.collateral * 8000)
    (claimTotalValue position.liabilities)) 10000

/-- Modelled from the claim's words exactly as stated: accumulation over every
NONZERO entry (negative entries included). -/
def claimTotalValueNonzero (entries : List (Address × Int)) : Int :=
  ((entries.filter fun e => decide (e.2 ≠ 0)).map
    (fun e => Int.tdiv (e.2 * get_token_price_usd e.1) 1000000)).sum

/-- The claim's health-factor formula exactly as stated, over nonzero
entries. -/
def claimHealthFactorNonzero (position : UserPositionData) : Int :=
  if claimTotalValueNonzero position.liabilities = 0 then i128Max
  else Int.tdiv (Int.tdiv (claimTotalValueNonzero position.collateral * 8000)
    (claimTotalValueNonzero position.liabilities)) 10000

theorem foldl_value (l : List (Address × Int)) (acc : Int) :
    l.foldl (fun acc e =>
      if e.2 > 0 then acc + Int.tdiv (e.2 * get_token_price_usd e.1) 1000000
      else acc) acc = acc + claimTotalValue l := by
  induction l generalizing acc with
  | nil => simp [claimTotalValue]
  | cons e rest ih =>
      simp only [List.foldl_cons]
      by_cases h : e.2 > 0
      · rw [if_pos h, ih]
        simp [claimTotalValue, List.filter_cons, h]
        ring
      · rw [if_neg h, ih]
        simp [claimTotalValue, List.filter_cons, h]

/-- An environment whose pool position holds a negative liability entry. -/
def extC3 : External :=
  { extW with position :=
      { collateral := [("X", 1000)], liabilities := [("X", -1)], supply := [] } }

set_option maxRecDepth 8000 in
/-- Counterexample to claim C3 as stated: with a negative liability entry the
code skips the entry (it only accumulates strictly positive amounts), finds
debt value 0 and returns `i128::MAX`, while the claim's accumulation "over
every nonzero entry" yields debt value -1 and health factor -800. -/
theorem C3_counterexample :
    calculate_health_factor stW extC3 = .ok i128Max ∧
    claimHealthFactorNonzero extC3.position = -800 ∧
    (i128Max : Int) ≠ -800 :=
  ⟨rfl, rfl, by decide⟩

/-- Claim C3 (amended): with "nonzero entry" corrected to "strictly positive
entry", `calculate_health_factor` computes exactly the claim's formula:
`i128::MAX` when the accumulated debt value is 0, otherwise
`collateral_value * 8000 / debt_value / 10000` with truncating division in
that order, the two values accumulated as `amount * price / 1_000_000` over
the positive entries of the position's collateral and liabilities maps. -/
theorem C3_health_factor (st : State) (ext : External) (bc : BlendConfig)
    (hb : st.blendConfig = some bc) :
    calculate_health_factor st ext = .ok (claimHealthFactor ext.position) := by
  by_cases hd : claimTotalValue ext.position.liabilities = 0 <;>
    simp [calculate_health_factor, hb, foldl_value, claimHealthFactor, hd]

/-- An environment realizing the claim's worked example: collateral value
1000 and debt value 500 (USDC is priced at 1e6). -/
def extC3w : External :=
  { extW with position :=
      { collateral := [(USDC_ADDRESS, 1000)]
        liabilities := [(USDC_ADDRESS, 500)]
        supply := [] } }

/-- Witness for C3, realizing the claim's worked example: collateral value
1000, debt value 500, health factor `1000*8000/500/10000 = 1`. -/
theorem C3_health_factor_witness :
    calculate_health_factor stW extC3w = .ok 1 := by
  rw [C3_health_factor stW extC3w bcW rfl]
  rfl

/-- Counterexample to claim C4 as stated: `initialize` accepts a fee rate of
20000, which exceeds 10000 — the source never validates `fee_rate`. -/
theorem C4_counterexample :
    (initContract State.empty extW "admin" 20000 "POOL" 150).isOk = true ∧
    (10000 : Int) < 20000 :=
  ⟨rfl, by norm_num⟩

/-- Claim C4 (amended): `initialize` fails if the contract is already
initialized and fails if the pool registry does not recognize the designated
pool, but performs no `fee_rate` validation (any fee rate is accepted); on
success it persists the Config and LendingConfig records and zeroes the three
aggregate counters. -/
theorem C4_amended_init_behavior (st : State) (ext : External) (admin : Address)
    (fee_rate : Int) (pool : Address) (mhf : Int) :
    (st.config.isSome = true →
      initContract st ext admin fee_rate pool mhf =
        .error "Already initialized") ∧
    (st.config = none → ext.isPool pool = false →
      initContract st ext admin fee_rate pool mhf =
        .error "Invalid blend pool") ∧
    (st.config = none → ext.isPool pool = true →
      initContract st ext admin fee_rate pool mhf = .ok
        { state :=
            { st with
              config := some
                { admin := admin, fee_rate := fee_rate, paused := false
                  emergency_mode := false }
              blendConfig := some
                { pool_address := pool, oracle_address := BLEND_ORACLE_MOCK
                  min_health_factor := mhf, auto_yield_enabled := true }
              totalTvl := some 0
              totalYieldGenerated := some 0
              activeUsersCount := some 0 }
          approvals := []
          submissions := []
          flashLoans := []
          events := [] }) := by
  refine ⟨?_, ?_, ?_⟩
  · intro h; simp [initContract, h]
  · intro h hp; simp [initContract, h, hp]
  · intro h hp; simp [initContract, h, hp]

/-- Witness for the amended C4: initializing the empty state with fee rate
20000 persists exactly the expected records and zeroed counters. -/
theorem C4_amended_init_behavior_witness :
    initContract State.empty extW "admin" 20000 "POOL" 150 = .ok
      { state :=
          { State.empty with
            config := some
              { admin := "admin", fee_rate := 20000, paused := false
                emergency_mode := false }
            blendConfig := some
              { pool_address := "POOL", oracle_address := BLEND_ORACLE_MOCK
                min_health_factor := 150, auto_yield_enabled := true }
            totalTvl := some 0
            totalYieldGenerated := some 0
            activeUsersCount := some 0 }
        approvals := []
        submissions := []
        flashLoans := []
        events := [] } :=
  (C4_amended_init_behavior State.empty extW "admin" 20000 "POOL" 150).2.2 rfl rfl

/-- A paused variant of the initialized witness state. -/
def stPausedW : State := { stW with config := some { cfgW with paused := true } }

/-- Counterexample to claim C5 as stated: in a state whose paused flag is
set, `supply_to_blend` and `borrow_against_dust` both complete successfully —
neither reads the Config record at all. -/
theorem C5_counterexample :
    (match stPausedW.config with
      | some c => c.paused
      | none => false) = true ∧
    (supply_to_blend stPausedW extW "user" "TOK" 5).isOk = true ∧
    (borrow_against_dust stPausedW extW "user" "TOK" 5).isOk = true :=
  ⟨rfl, rfl, rfl⟩

/-- Claim C5 (amended): of the three operations, only `flash_loan_arbitrage`
checks the paused flag, failing with the paused error for all inputs;
`supply_to_blend` and `borrow_against_dust` never read the flag and, in a
paused state, still succeed whenever their other preconditions (a stored
BlendConfig and the pool-status gate) hold. -/
theorem C5_amended_pause_gate (st : State) (ext : External) (user token : Address)
    (amount : Int) (c : ContractConfig)
    (hc : st.config = some c) (hp : c.paused = true) :
    (∀ params, flash_loan_arbitrage st ext user params =
      .error "Contract is paused") ∧
    (∀ bc, st.blendConfig = some bc → ext.poolStatus bc.pool_address ≤ 3 →
      (supply_to_blend st ext user token amount).isOk = true) ∧
    (∀ bc, st.blendConfig = some bc → ext.poolStatus bc.pool_address ≤ 1 →
      (borrow_against_dust st ext user token amount).isOk = true) := by
  refine ⟨?_, ?_, ?_⟩
  · intro params
    simp [flash_loan_arbitrage, flashLoanArbitrageWith, hc, hp]
  · intro bc hb hs
    simp [supply_to_blend, hb, not_lt.mpr hs, Except.isOk, Except.toBool]
  · intro bc hb hs
    simp [borrow_against_dust, hb, not_lt.mpr hs, Except.isOk, Except.toBool]

/-- Witness for the amended C5: on the concrete paused state,
`flash_loan_arbitrage` fails with the paused error. -/
theorem C5_amended_pause_gate_witness :
    flash_loan_arbitrage stPausedW extW "user"
      { loan_token := "T", loan_amount := 5, swap_path := [], min_profit := 0 } =
      .error "Contract is paused" :=
  (C5_amended_pause_gate stPausedW extW "user" "TOK" 5
    { cfgW with paused := true } rfl rfl).1
    { loan_token := "T", loan_amount := 5, swap_path := [], min_profit := 0 }

/-- Claim C7: on every successful `supply_to_blend(user, token, amount)` the
contract issues exactly one spend approval to the pool for exactly `amount`,
expiring exactly 1000 ledger sequences after the current one, submits exactly
one deposit-collateral request for `(token, amount)`, and increases the
user's `supplied_to_blend` tracker for that token by exactly `amount`,
creating the balance record lazily when absent. -/
theorem C7_supply_effects (st : State) (ext : External) (user token : Address)
    (amount : Int) (bc : BlendConfig)
    (hb : st.blendConfig = some bc) (hs : ext.poolStatus bc.pool_address ≤ 3) :
    ∃ r, supply_to_blend st ext user token amount = .ok r ∧
      r.approvals = [{ owner := ext.contractAddress
                       spender := bc.pool_address
                       amount := amount
                       expiration := ext.sequence + 1000 }] ∧
      r.submissions = [[{ request_type := REQUEST_DEPOSIT_COLLATERAL
                          address := token
                          amount := amount }]] ∧
      (mapGet ((mapGet r.state.userBalances user).getD []) token).isSome = true ∧
      (get_user_balance r.state ext user token).supplied_to_blend =
        (get_user_balance st ext user token).supplied_to_blend + amount := by
  simp only [supply_to_blend, hb]
  rw [if_neg (not_lt.mpr hs)]
  refine ⟨_, rfl, rfl, rfl, ?_, ?_⟩
  · simp [mapGet_mapSet_self]
  · simp [get_user_balance, mapGet_mapSet_self]

/-- Witness for C7: a concrete supply of 5 on the initialized empty state. -/
theorem C7_supply_effects_witness :
    ∃ r, supply_to_blend stW extW "user" "TOK" 5 = .ok r ∧
      r.approvals = [{ owner := extW.contractAddress
                       spender := bcW.pool_address
                       amount := 5
                       expiration := extW.sequence + 1000 }] ∧
      r.submissions = [[{ request_type := REQUEST_DEPOSIT_COLLATERAL
                          address := "TOK"
                          amount := 5 }]] ∧
      (mapGet ((mapGet r.state.userBalances "user").getD []) "TOK").isSome = true ∧
      (get_user_balance r.state extW "user" "TOK").supplied_to_blend =
        (get_user_balance stW extW "user" "TOK").supplied_to_blend + 5 :=
  C7_supply_effects stW extW "user" "TOK" 5 bcW rfl (by decide)

/-- An initialized state holding one record: balance 10, supplied 3,
borrowed 4. -/
def stC8 : State :=
  { stW with userBalances :=
      [("user", [("TOK", { token := "TOK"
                           balance := 10
                           supplied_to_blend := 3
                           borrowed_from_blend := 4
                           last_updated := 0 })])] }

set_option maxRecDepth 8000 in
/-- Counterexample to claim C8 as stated: withdrawing 5 against a tracked
supply of 3 leaves `supplied_to_blend = -2`, not `max (3 - 5) 0 = 0` —
`i128::saturating_sub` clamps at the `i128` bounds, not at zero. -/
theorem C8_counterexample :
    (withdraw_from_blend stC8 extW "user" "TOK" 5).map
      (fun r => (get_user_balance r.state extW "user" "TOK").supplied_to_blend) =
      .ok (-2) ∧
    ¬ (-2 : Int) = max (3 - 5) 0 :=
  ⟨rfl, by norm_num⟩

/-- Claim C8 (amended): for every existing balance record,
`withdraw_from_blend` replaces `supplied_to_blend`, and `repay_blend_debt`
replaces `borrowed_from_blend` and the spendable `balance`, by the `i128`
saturating difference `max (min (old - amount) i128::MAX) i128::MIN` — the
subtraction saturates at the `i128` bounds, not at zero, and never fails when
the requested decrement exceeds the tracked amount (so the field can go
negative). -/
theorem C8_amended_saturating (st : State) (ext : External)
    (user token : Address) (amount : Int) (bc : BlendConfig) (b : UserBalance)
    (hb : st.blendConfig = some bc)
    (hrec : mapGet ((mapGet st.userBalances user).getD []) token = some b) :
    (∃ r, withdraw_from_blend st ext user token amount = .ok r ∧
      mapGet ((mapGet r.state.userBalances user).getD []) token = some
        { b with
          supplied_to_blend := max (min (b.supplied_to_blend - amount) i128Max) i128Min
          last_updated := ext.timestamp }) ∧
    (∃ r, repay_blend_debt st ext user token amount = .ok r ∧
      mapGet ((mapGet r.state.userBalances user).getD []) token = some
        { b with
          borrowed_from_blend := max (min (b.borrowed_from_blend - amount) i128Max) i128Min
          balance := max (min (b.balance - amount) i128Max) i128Min
          last_updated := ext.timestamp }) := by
  constructor
  · simp only [withdraw_from_blend, hb]
    rw [hrec]
    refine ⟨_, rfl, ?_⟩
    simp [mapGet_mapSet_self, saturatingSub]
  · simp only [repay_blend_debt, hb]
    rw [hrec]
    refine ⟨_, rfl, ?_⟩
    simp [mapGet_mapSet_self, saturatingSub]

/-- Witness for the amended C8 at the concrete record (10, 3, 4) and
amount 5. -/
theorem C8_amended_saturating_witness :
    ∃ r, withdraw_from_blend stC8 extW "user" "TOK" 5 = .ok r ∧
      mapGet ((mapGet r.state.userBalances "user").getD []) "TOK" = some
        { token := "TOK"
          balance := 10
          supplied_to_blend := max (min (3 - 5) i128Max) i128Min
          borrowed_from_blend := 4
          last_updated := 42 } :=
  (C8_amended_saturating stC8 extW "user" "TOK" 5 bcW
    { token := "TOK"
      balance := 10
      supplied_to_blend := 3
      borrowed_from_blend := 4
      last_updated := 0 } rfl rfl).1

/-- Claim C10: when no balance record exists for `(user, token)`,
`withdraw_from_blend` and `repay_blend_debt` leave the stored state
completely unchanged (they do not create the record), while
`get_user_balance` returns a record whose `balance`, `supplied_to_blend` and
`borrowed_from_blend` are all 0. -/
theorem C10_no_record_no_write (st : State) (ext : External)
    (user token : Address) (amount : Int) (bc : BlendConfig)
    (hb : st.blendConfig = some bc)
    (habs : mapGet ((mapGet st.userBalances user).getD []) token = none) :
    (∃ r, withdraw_from_blend st ext user token amount = .ok r ∧ r.state = st) ∧
    (∃ r, repay_blend_debt st ext user token amount = .ok r ∧ r.state = st) ∧
    (get_user_balance st ext user token).balance = 0 ∧
    (get_user_balance st ext user token).supplied_to_blend = 0 ∧
    (get_user_balance st ext user token).borrowed_from_blend = 0 := by
  refine ⟨?_, ?_, ?_, ?_, ?_⟩
  · simp only [withdraw_from_blend, hb]
    rw [habs]
    exact ⟨_, rfl, rfl⟩
  · simp only [repay_blend_debt, hb]
    rw [habs]
    exact ⟨_, rfl, rfl⟩
  · simp [get_user_balance, habs]
  · simp [get_user_balance, habs]
  · simp [get_user_balance, habs]

/-- Witness for C10 on the initialized record-free state. -/
theorem C10_no_record_no_write_witness :
    (∃ r, withdraw_from_blend stW extW "user" "TOK" 9 = .ok r ∧ r.state = stW) ∧
    (∃ r, repay_blend_debt stW extW "user" "TOK" 9 = .ok r ∧ r.state = stW) ∧
    (get_user_balance stW extW "user" "TOK").balance = 0 ∧
    (get_user_balance stW extW "user" "TOK").supplied_to_blend = 0 ∧
    (get_user_balance stW extW "user" "TOK").borrowed_from_blend = 0 :=
  C10_no_record_no_write stW extW "user" "TOK" 9 bcW rfl rfl

end Lucra
